import Mathlib

/-!
Verification of the product-analysis pipeline of `tiktok_trend_hunter`
(`models.py`, `analyzer.py`, and the ranking step of `main.py`).

Python strings are modelled as `List Char`, Python floats as exact
rationals (`ℚ`; the floats that occur here are decimal literals and the
claims do not depend on binary rounding), Python ints as `Int`, and
fallible constructors / raising functions as `Option` / `Except`.
-/

set_option maxRecDepth 4000

/-- Convert a Lean string literal to the `List Char` representation used
throughout this development. -/
def str (s : String) : List Char := s.data

/-- Python `str.isspace` characters relevant to `str.strip()` (ASCII). -/
def pyIsSpace (c : Char) : Bool :=
  c == ' ' || c == '\t' || c == '\n' || c == '\r' || c == '\x0b' || c == '\x0c'

/-- Python `str.strip()`: drop leading and trailing whitespace. -/
def pyStrip (s : List Char) : List Char :=
  ((s.dropWhile pyIsSpace).reverse.dropWhile pyIsSpace).reverse

/-- Python `str.startswith`. -/
def startswith (pre s : List Char) : Bool := pre.isPrefixOf s

/-- Python `str.endswith`. -/
def endswith (suf s : List Char) : Bool := suf.reverse.isPrefixOf s.reverse

/-- JSON values, as produced by `json.loads`.  A number is kept exactly as
`mant * 10 ^ exp10` (all JSON numbers are finite decimals), which avoids any
rounding and lets integrality be tested exactly. -/
inductive Json where
  | null
  | bool (b : Bool)
  | num (mant : Int) (exp10 : Int)
  | str (s : List Char)
  | arr (elems : List Json)
  | obj (fields : List (List Char × Json))

/-- JSON inter-token whitespace. -/
def jsonWsChar (c : Char) : Bool := c == ' ' || c == '\t' || c == '\n' || c == '\r'

/-- Skip JSON whitespace. -/
def skipWs (s : List Char) : List Char := s.dropWhile jsonWsChar

/-- Value of a decimal digit string. -/
def digitsToNat (ds : List Char) : Nat :=
  ds.foldl (fun acc c => acc * 10 + (c.toNat - 48)) 0

/-- One hexadecimal digit. -/
def parseHexDigit (c : Char) : Option Nat :=
  if '0' ≤ c ∧ c ≤ '9' then some (c.toNat - 48)
  else if 'a' ≤ c ∧ c ≤ 'f' then some (c.toNat - 87)
  else if 'A' ≤ c ∧ c ≤ 'F' then some (c.toNat - 55)
  else none

/-- Body of a JSON string (after the opening quote), with escapes. -/
def parseStringBody : Nat → List Char → List Char → Option (List Char × List Char)
  | 0, _, _ => none
  | _ + 1, [], _ => none
  | fuel + 1, c :: rest, acc =>
    if c == '"' then some (acc.reverse, rest)
    else if c == '\\' then
      match rest with
      | [] => none
      | e :: r2 =>
        if e == '"' then parseStringBody fuel r2 ('"' :: acc)
        else if e == '\\' then parseStringBody fuel r2 ('\\' :: acc)
        else if e == '/' then parseStringBody fuel r2 ('/' :: acc)
        else if e == 'b' then parseStringBody fuel r2 ('\x08' :: acc)
        else if e == 'f' then parseStringBody fuel r2 ('\x0c' :: acc)
        else if e == 'n' then parseStringBody fuel r2 ('\n' :: acc)
        else if e == 'r' then parseStringBody fuel r2 ('\r' :: acc)
        else if e == 't' then parseStringBody fuel r2 ('\t' :: acc)
        else if e == 'u' then
          match r2 with
          | h1 :: h2 :: h3 :: h4 :: r3 =>
            match parseHexDigit h1, parseHexDigit h2, parseHexDigit h3, parseHexDigit h4 with
            | some a, some b, some c3, some d =>
              parseStringBody fuel r3 (Char.ofNat (((a * 16 + b) * 16 + c3) * 16 + d) :: acc)
            | _, _, _, _ => none
          | _ => none
        else none
    else if c.toNat < 32 then none
    else parseStringBody fuel rest (c :: acc)

/-- Optional fractional part of a JSON number: digit value and digit count. -/
def parseFrac (s : List Char) : Option ((Nat × Nat) × List Char) :=
  match s with
  | '.' :: t =>
    let fs := t.takeWhile Char.isDigit
    if fs = [] then none
    else some ((digitsToNat fs, fs.length), t.drop fs.length)
  | _ => some ((0, 0), s)

/-- Optional exponent part of a JSON number, as a signed power of ten. -/
def parseExp (s : List Char) : Option (Int × List Char) :=
  match s with
  | c :: t =>
    if c == 'e' || c == 'E' then
      let (eneg, t1) :=
        match t with
        | '+' :: r => (false, r)
        | '-' :: r => (true, r)
        | _ => (false, t)
      let es := t1.takeWhile Char.isDigit
      if es = [] then none
      else some (if eneg then -(digitsToNat es : Int) else (digitsToNat es : Int),
                 t1.drop es.length)
    else some (0, s)
  | [] => some (0, [])

/-- Powers of ten over `Int`, by plain structural recursion. -/
def pow10 : Nat → Int
  | 0 => 1
  | k + 1 => 10 * pow10 k

/-- A JSON number (sign, integer part with no leading zeros, fraction, exponent),
returned as mantissa and decimal exponent. -/
def parseNumber (s : List Char) : Option ((Int × Int) × List Char) :=
  let (neg, s1) :=
    match s with
    | '-' :: r => (true, r)
    | _ => (false, s)
  let ds := s1.takeWhile Char.isDigit
  if ds = [] then none
  else if 1 < ds.length ∧ ds.headD '0' = '0' then none
  else
    match parseFrac (s1.drop ds.length) with
    | none => none
    | some ((fv, fc), s3) =>
      match parseExp s3 with
      | none => none
      | some (ev, s4) =>
        let mantNat := digitsToNat ds * (pow10 fc).natAbs + fv
        let mant : Int := if neg then -(mantNat : Int) else (mantNat : Int)
        some ((mant, ev - (fc : Int)), s4)

mutual

/-- Recursive-descent JSON parser: one value, returning the rest of the input. -/
def parseValue : Nat → List Char → Option (Json × List Char)
  | 0, _ => none
  | fuel + 1, s =>
    match skipWs s with
    | [] => none
    | c :: rest =>
      if c == 'n' then
        if startswith (str "ull") rest then some (Json.null, rest.drop 3) else none
      else if c == 't' then
        if startswith (str "rue") rest then some (Json.bool true, rest.drop 3) else none
      else if c == 'f' then
        if startswith (str "alse") rest then some (Json.bool false, rest.drop 4) else none
      else if c == '"' then
        match parseStringBody (rest.length + 1) rest [] with
        | some (sv, r) => some (Json.str sv, r)
        | none => none
      else if c == '[' then
        match skipWs rest with
        | ']' :: r => some (Json.arr [], r)
        | r => parseElems fuel r []
      else if c == '\x7b' then
        match skipWs rest with
        | '\x7d' :: r => some (Json.obj [], r)
        | r => parseMembers fuel r []
      else
        match parseNumber (c :: rest) with
        | some ((m, e), r) => some (Json.num m e, r)
        | none => none

/-- Array elements after the opening bracket (nonempty case). -/
def parseElems : Nat → List Char → List Json → Option (Json × List Char)
  | 0, _, _ => none
  | fuel + 1, s, acc =>
    match parseValue fuel s with
    | none => none
    | some (v, r) =>
      match skipWs r with
      | ',' :: r2 => parseElems fuel r2 (v :: acc)
      | ']' :: r2 => some (Json.arr (v :: acc).reverse, r2)
      | _ => none

/-- Object members after the opening brace (nonempty case). -/
def parseMembers : Nat → List Char → List (List Char × Json) → Option (Json × List Char)
  | 0, _, _ => none
  | fuel + 1, s, acc =>
    match skipWs s with
    | '"' :: r =>
      match parseStringBody (r.length + 1) r [] with
      | some (k, r2) =>
        match skipWs r2 with
        | ':' :: r3 =>
          match parseValue fuel r3 with
          | some (v, r4) =>
            match skipWs r4 with
            | ',' :: r5 => parseMembers fuel r5 ((k, v) :: acc)
            | '\x7d' :: r5 => some (Json.obj ((k, v) :: acc).reverse, r5)
            | _ => none
          | none => none
        | _ => none
      | none => none
    | _ => none

end

/-- `json.loads`: parse a complete JSON document (whole input consumed). -/
def parseJson (s : List Char) : Option Json :=
  match parseValue (4 * s.length + 8) s with
  | some (v, rest) => if skipWs rest = [] then some v else none
  | none => none

/-!
## Data model (`models.py`)
-/

/-- `ProductData` (models.py): raw product data.  The source declares no
`Field` constraints on this model, so the pydantic boundary only fixes types
and defaults. -/
structure ProductData where
  product_id : List Char
  product_title : List Char
  product_url : List Char
  price : ℚ
  original_price : Option ℚ := none
  sales_count : Int
  rating : Option ℚ := none
  review_count : Int := 0
  shop_name : Option (List Char) := none
  category : Option (List Char) := none
  reviews : List (List Char) := []
  image_url : Option (List Char) := none
deriving DecidableEq

/-- The pydantic construction boundary for `ProductData`: the source declares
no value constraints (`Field(ge=...)` or similar) on any field, so
construction always succeeds. -/
def mkProductData (product_id product_title product_url : List Char) (price : ℚ)
    (original_price : Option ℚ) (sales_count : Int) (rating : Option ℚ)
    (review_count : Int) (shop_name category : Option (List Char))
    (reviews : List (List Char)) (image_url : Option (List Char)) :
    Option ProductData :=
  some ⟨product_id, product_title, product_url, price, original_price, sales_count,
        rating, review_count, shop_name, category, reviews, image_url⟩

/-- Constructing `ProductData` giving only the required fields; the omitted
optional fields take the defaults declared in the source
(`None`, `review_count = 0`, `reviews = []`, from models.py lines 13-20). -/
def mkProductDataMinimal (product_id product_title product_url : List Char)
    (price : ℚ) (sales_count : Int) : Option ProductData :=
  mkProductData product_id product_title product_url price none sales_count
    none 0 none none [] none

/-- `ProductAnalysis` (models.py): AI-generated analysis, field order as in
the source. -/
structure ProductAnalysis where
  virality_score : Int
  why_winning : List Char
  problem_solved : List Char
  emotional_triggers : List (List Char)
  marketing_angles : List (List Char)
  quality_flags : List (List Char)
  target_audience : List Char
  ad_hooks : List (List Char)
deriving DecidableEq

/-- The pydantic construction boundary for `ProductAnalysis`:
`virality_score` carries `Field(ge=0, le=100)`, so construction fails
exactly when the score is out of `[0, 100]`. -/
def mkProductAnalysis (virality_score : Int) (why_winning problem_solved : List Char)
    (emotional_triggers marketing_angles quality_flags : List (List Char))
    (target_audience : List Char) (ad_hooks : List (List Char)) :
    Option ProductAnalysis :=
  if 0 ≤ virality_score ∧ virality_score ≤ 100 then
    some ⟨virality_score, why_winning, problem_solved, emotional_triggers,
          marketing_angles, quality_flags, target_audience, ad_hooks⟩
  else none

/-!
## Field coercion/validation for `ProductAnalysis(**data)`

Pydantic v2 lax mode: an `int` field accepts a JSON integer, an
integer-valued float, or an integer string; a `str` field accepts only a
JSON string; a `list[str]` field accepts only an array of strings.
Extra keys are ignored, `virality_score`/`why_winning`/`problem_solved`/
`target_audience` are required, and the four list fields default to `[]`.
-/

/-- Python dict built by `json.loads`: on duplicate keys the last wins. -/
def dictGet (fields : List (List Char × Json)) (key : List Char) : Option Json :=
  match fields.reverse.find? (fun kv => kv.1 == key) with
  | some kv => some kv.2
  | none => none

/-- Is the exact decimal `mant * 10 ^ exp10` an integer, and which one. -/
def decToInt? (mant exp10 : Int) : Option Int :=
  if 0 ≤ exp10 then some (mant * pow10 exp10.toNat)
  else if Int.emod mant (pow10 (-exp10).toNat) = 0 then
    some (Int.ediv mant (pow10 (-exp10).toNat))
  else none

/-- Integer value of a decimal string (pydantic lax `str -> int` coercion). -/
def parseIntStr (s : List Char) : Option Int :=
  let t := pyStrip s
  let (neg, t1) :=
    match t with
    | '-' :: r => (true, r)
    | '+' :: r => (false, r)
    | _ => (false, t)
  if t1 ≠ [] ∧ t1.all Char.isDigit then
    some (if neg then -(digitsToNat t1 : Int) else (digitsToNat t1 : Int))
  else none

/-- Lax coercion of a JSON value into an `int` field. -/
def coerceInt : Json → Option Int
  | Json.num m e => decToInt? m e
  | Json.str s => parseIntStr s
  | _ => none

/-- Lax coercion of a JSON value into a `str` field. -/
def coerceStr : Json → Option (List Char)
  | Json.str s => some s
  | _ => none

/-- Lax coercion of a JSON value into a `list[str]` field. -/
def coerceStrList : Json → Option (List (List Char))
  | Json.arr xs => xs.mapM coerceStr
  | _ => none

/-- A `list[str]` field with `default_factory=list`: absent means `[]`. -/
def listFieldOrDefault (fields : List (List Char × Json)) (key : List Char) :
    Option (List (List Char)) :=
  match dictGet fields key with
  | none => some []
  | some j => coerceStrList j

/-- `ProductAnalysis(**data)` for a JSON object `data`: extract and coerce the
eight declared fields, then construct through the validating boundary. -/
def validateAnalysis (fields : List (List Char × Json)) : Option ProductAnalysis := do
  let v ← (dictGet fields (str "virality_score")).bind coerceInt
  let ww ← (dictGet fields (str "why_winning")).bind coerceStr
  let ps ← (dictGet fields (str "problem_solved")).bind coerceStr
  let et ← listFieldOrDefault fields (str "emotional_triggers")
  let ma ← listFieldOrDefault fields (str "marketing_angles")
  let qf ← listFieldOrDefault fields (str "quality_flags")
  let ta ← (dictGet fields (str "target_audience")).bind coerceStr
  let ah ← listFieldOrDefault fields (str "ad_hooks")
  mkProductAnalysis v ww ps et ma qf ta ah

/-!
## Response interpreter (`analyzer.py _parse_response`)
-/

/-- The backtick character (written via its code point so that proofs can
destructure fence strings without a backtick token). -/
def backtick : Char := Char.ofNat 96

/-- The bare triple-backtick fence. -/
def fenceBare : List Char := [backtick, backtick, backtick]

/-- The literal leading fence with language tag handled by the source:
triple backtick followed by the tag `json`. -/
def fenceJson : List Char := fenceBare ++ str "json"

/-- Fence stripping exactly as in `_parse_response` (analyzer.py 106-111):
drop a leading `\x60\x60\x60json` (7 chars), then a leading `\x60\x60\x60`
(3 chars), then a trailing `\x60\x60\x60` (3 chars), each only if present. -/
def stripFences (s : List Char) : List Char :=
  let s1 := if startswith fenceJson s then s.drop 7 else s
  let s2 := if startswith fenceBare s1 then s1.drop 3 else s1
  if endswith fenceBare s2 then s2.take (s2.length - 3) else s2

/-- The degraded default returned when JSON decoding or pydantic validation
fails inside `_parse_response` (analyzer.py 118-127). -/
def defaultParseFailure : ProductAnalysis :=
  ⟨50, str "Unable to analyze - AI response parsing failed", str "Unknown",
   [], [], [str "Analysis incomplete"], str "General consumers", []⟩

/-- `_parse_response`: strip, unfence, `json.loads`, `ProductAnalysis(**data)`.
`json.JSONDecodeError` and `ValueError` (pydantic validation errors are
`ValueError`s) are caught and replaced by `defaultParseFailure`; unpacking a
non-object with `**` raises `TypeError`, which this handler does not catch,
so that case is an `Except.error` propagated to the caller. -/
def _parse_response (response_text : List Char) : Except (List Char) ProductAnalysis :=
  match parseJson (pyStrip (stripFences (pyStrip response_text))) with
  | none => Except.ok defaultParseFailure
  | some (Json.obj fields) =>
    match validateAnalysis fields with
    | some a => Except.ok a
    | none => Except.ok defaultParseFailure
  | some _ => Except.error (str "argument after ** must be a mapping")

/-- The degraded default built in the `except Exception` handler of
`analyze_product` (analyzer.py 165-174). -/
def defaultGenFailure (errMsg : List Char) : ProductAnalysis :=
  ⟨0, str "Analysis failed: " ++ errMsg, str "Unknown",
   [], [], [str "Analysis failed"], str "Unknown", []⟩

/-- `analyze_product`: the generation call either raises (`Except.error`) or
returns the response text; any exception inside the `try` — including the
`TypeError` that `_parse_response` can let escape — is caught and replaced by
the score-0 degraded default. -/
def analyze_product (generation : Except (List Char) (List Char)) : ProductAnalysis :=
  match generation with
  | Except.error e => defaultGenFailure e
  | Except.ok response_text =>
    match _parse_response response_text with
    | Except.ok analysis => analysis
    | Except.error e => defaultGenFailure e

/-- `analyze_products`: sequential loop, one result appended per product. -/
def analyze_products (generations : List (Except (List Char) (List Char))) :
    List ProductAnalysis :=
  generations.map analyze_product

/-!
## Prompt builder (`analyzer.py _format_prompt` and `ANALYSIS_PROMPT`)
-/

/-- Join with a separator (Python `sep.join`). -/
def joinWith (sep : List Char) : List (List Char) → List Char
  | [] => []
  | [x] => x
  | x :: xs => x ++ sep ++ joinWith sep xs

/-- Decimal digits of a natural number. -/
def natDigitsRepr (n : Nat) : List Char := Nat.toDigits 10 n

/-- Python `str` of an int. -/
def intRepr (i : Int) : List Char :=
  if i < 0 then '-' :: natDigitsRepr i.natAbs else natDigitsRepr i.natAbs

/-- Decimal digits of the fractional part `rem / den`, fuel-limited (the
floats appearing in this program are finite decimals). -/
def fracDigits : Nat → Nat → Nat → List Char
  | 0, _, _ => []
  | _ + 1, 0, _ => []
  | fuel + 1, rem, den =>
    let r10 := rem * 10
    Char.ofNat (48 + r10 / den) :: fracDigits fuel (r10 % den) den

/-- Python `str` of a float, with floats modelled as exact rationals:
sign, integer part, a dot, and the (nonempty) fractional digits. -/
def ratRepr (q : ℚ) : List Char :=
  let n := q.num.natAbs
  let d := q.den
  let fr := fracDigits 64 (n % d) d
  (if q < 0 then [ '-' ] else []) ++ natDigitsRepr (n / d) ++
    [ '.' ] ++ (if fr = [] then [ '0' ] else fr)

/-- `ANALYSIS_PROMPT` before the `title` hole. -/
def promptA : List Char := str "You are an expert e-commerce analyst specializing in viral product identification for TikTok Shop and social commerce.\n\nAnalyze the following product data and provide a detailed assessment:\n\nProduct Title: "

/-- Between the `title` and `price` holes. -/
def promptB : List Char := str "\nPrice: $"

/-- Between the `price` and `sales_count` holes. -/
def promptC : List Char := str "\nSales Count: "

/-- Between the `sales_count` and `rating` holes. -/
def promptD : List Char := str "\nRating: "

/-- Between the `rating` and `review_count` holes. -/
def promptE : List Char := str "\nReview Count: "

/-- Between the `review_count` and `category` holes. -/
def promptF : List Char := str "\nCategory: "

/-- Between the `category` and `reviews` holes. -/
def promptG : List Char := str "\n\nRecent Reviews:\n"

/-- `ANALYSIS_PROMPT` after the `reviews` hole (the fixed JSON-format
instructions; `\x7b\x7d` are the literal braces written `{{`/`}}` in the
Python format template). -/
def promptH : List Char := str "\n\nBased on this data, provide your analysis in the following JSON format:\n\x7b\n    \"virality_score\": <0-100 score based on sales velocity, review sentiment, and viral potential>,\n    \"why_winning\": \"<2-3 sentence explanation of why this product is trending>\",\n    \"problem_solved\": \"<The main pain point or problem this product addresses>\",\n    \"emotional_triggers\": [\"<emotional trigger 1>\", \"<emotional trigger 2>\", ...],\n    \"marketing_angles\": [\"<marketing angle 1>\", \"<marketing angle 2>\", ...],\n    \"quality_flags\": [\"<potential quality issue 1>\", ...],\n    \"target_audience\": \"<Description of the ideal customer>\",\n    \"ad_hooks\": [\"<video ad hook idea 1>\", \"<video ad hook idea 2>\", ...]\n\x7d\n\nConsider:\n- Sales velocity (high sales = proven demand)\n- Review sentiment and emotional language\n- Problem-solution clarity\n- Viral/shareable qualities\n- Price point attractiveness\n- Potential quality concerns from reviews\n\nRespond ONLY with the JSON object, no additional text."

/-- `_format_prompt` (analyzer.py 85-99).  `product.rating or \"N/A\"` and
`product.category or \"Unknown\"` are Python truthiness tests: a rating of
`0.0` and an empty category string are falsy and take the fallback. -/
def _format_prompt (product : ProductData) : List Char :=
  let reviews_text :=
    let joined := joinWith (str "\n")
      ((product.reviews.take 10).map (fun review => str "- " ++ review))
    if joined = [] then str "No reviews available" else joined
  promptA ++ product.product_title ++ promptB ++ ratRepr product.price ++
  promptC ++ intRepr product.sales_count ++ promptD ++
  (match product.rating with
   | some r => if r = 0 then str "N/A" else ratRepr r
   | none => str "N/A") ++
  promptE ++ intRepr product.review_count ++ promptF ++
  (match product.category with
   | some c => if c = [] then str "Unknown" else c
   | none => str "Unknown") ++
  promptG ++ reviews_text ++ promptH

/-!
## Generation-client construction (`analyzer.py ProductAnalyzer.__init__`)
-/

/-- The state `__init__` leaves behind: which client objects were built and
with which credentials (client construction itself performs no network call). -/
structure ProductAnalyzer where
  provider : List Char
  anthropic_client : Option (List Char)
  openai_client : Option (List Char × Option (List Char))
  model : Option (List Char)
deriving DecidableEq

/-- Python truthiness of an optional string: `None` and `\"\"` are falsy. -/
def pyTruthyOptStr : Option (List Char) → Bool
  | none => false
  | some [] => false
  | some (_ :: _) => true

/-- `ProductAnalyzer.__init__` (analyzer.py 53-83): select the provider by
name, fail with `ValueError` when the selected provider's credential is
falsy or the name is unknown; other providers' credentials are never read. -/
def ProductAnalyzer.init (provider : List Char)
    (anthropic_api_key openai_api_key openrouter_api_key : Option (List Char))
    (openrouter_model : List Char) : Except (List Char) ProductAnalyzer :=
  if provider = str "anthropic" then
    if pyTruthyOptStr anthropic_api_key then
      Except.ok ⟨provider, anthropic_api_key, none, none⟩
    else Except.error (str "Anthropic API key is required")
  else if provider = str "openai" then
    if pyTruthyOptStr openai_api_key then
      Except.ok ⟨provider, none, openai_api_key.map (fun k => (k, none)), none⟩
    else Except.error (str "OpenAI API key is required")
  else if provider = str "openrouter" then
    if pyTruthyOptStr openrouter_api_key then
      Except.ok ⟨provider, none,
        openrouter_api_key.map (fun k => (k, some (str "https://openrouter.ai/api/v1"))),
        some openrouter_model⟩
    else Except.error (str "OpenRouter API key is required")
  else Except.error (str "Unknown AI provider: " ++ provider)

/-!
## Aggregation (`models.py AnalyzedProduct`) and ranking (`main.py`)
-/

/-- `AnalyzedProduct` (models.py 44-66): merged product + analysis record.
Field order as in the source; note the source declares no `reviews` field
here. -/
structure AnalyzedProduct where
  product_id : List Char
  product_title : List Char
  product_url : List Char
  price : ℚ
  original_price : Option ℚ := none
  discount_percentage : Option ℚ := none
  sales_count : Int
  rating : Option ℚ := none
  review_count : Int := 0
  shop_name : Option (List Char) := none
  category : Option (List Char) := none
  image_url : Option (List Char) := none
  virality_score : Int
  why_winning : List Char
  problem_solved : List Char
  emotional_triggers : List (List Char)
  marketing_angles : List (List Char)
  quality_flags : List (List Char)
  target_audience : List Char
  ad_hooks : List (List Char)
deriving DecidableEq

/-- Round-half-to-even on a rational, Python's rounding mode for `round`. -/
def roundHalfEven (q : ℚ) : Int :=
  let f := ⌊q⌋
  let frac := q - (f : ℚ)
  if frac < 1 / 2 then f
  else if 1 / 2 < frac then f + 1
  else if f % 2 = 0 then f else f + 1

/-- Python `round(x, 1)` on floats modelled as exact rationals. -/
def pyRound1 (q : ℚ) : ℚ := (roundHalfEven (q * 10) : ℚ) / 10

/-- `AnalyzedProduct.from_product_and_analysis` (models.py 68-100).
The guard `if product.original_price and product.original_price > product.price`
tests Python truthiness first: `None` and `0.0` are falsy. -/
def from_product_and_analysis (product : ProductData) (analysis : ProductAnalysis) :
    AnalyzedProduct :=
  let discount : Option ℚ :=
    match product.original_price with
    | some op =>
      if op ≠ 0 ∧ product.price < op then
        some (pyRound1 ((1 - product.price / op) * 100))
      else none
    | none => none
  ⟨product.product_id, product.product_title, product.product_url, product.price,
   product.original_price, discount, product.sales_count, product.rating,
   product.review_count, product.shop_name, product.category, product.image_url,
   analysis.virality_score, analysis.why_winning, analysis.problem_solved,
   analysis.emotional_triggers, analysis.marketing_angles, analysis.quality_flags,
   analysis.target_audience, analysis.ad_hooks⟩

/-- The sort key relation of `main.py` line 83
(`sort(key=lambda x: x.virality_score, reverse=True)`): `a` may come before
`b` when `b`'s score is at most `a`'s. -/
def descByScore (a b : AnalyzedProduct) : Prop :=
  b.virality_score ≤ a.virality_score

instance : DecidableRel descByScore :=
  fun a b => inferInstanceAs (Decidable (b.virality_score ≤ a.virality_score))

instance : IsTotal AnalyzedProduct descByScore :=
  ⟨fun a b => le_total b.virality_score a.virality_score⟩

instance : IsTrans AnalyzedProduct descByScore :=
  ⟨fun _ _ _ hab hbc => le_trans hbc hab⟩

/-- The ranking step of `main.py` line 83: Python `list.sort` is a stable
sort; with `reverse=True` it is a stable sort by descending key, which is
extensionally `List.insertionSort` under `descByScore`. -/
def rankProducts (products : List AnalyzedProduct) : List AnalyzedProduct :=
  List.insertionSort descByScore products

/-!
## Spec-side prompt description and concrete fixtures
-/

/-- Modelled from the spec's description of the prompt builder, amended for
Python truthiness: one text block embedding title, price, sales count,
rating rendered `N/A` exactly when the rating is absent *or zero*, review
count, category rendered `Unknown` exactly when the category is absent *or
empty*, and at most the first 10 reviews one per line prefixed `- `, or the
`No reviews available` sentinel when the review list is empty. -/
def formatPromptSpec (p : ProductData) : List Char :=
  let ratingStr :=
    if p.rating = none ∨ p.rating = some 0 then str "N/A" else ratRepr (p.rating.getD 0)
  let categoryStr :=
    if p.category = none ∨ p.category = some [] then str "Unknown" else p.category.getD []
  let reviewsStr :=
    if p.reviews = [] then str "No reviews available"
    else joinWith (str "\n") ((p.reviews.take 10).map (fun review => str "- " ++ review))
  promptA ++ p.product_title ++ promptB ++ ratRepr p.price ++
  promptC ++ intRepr p.sales_count ++ promptD ++ ratingStr ++
  promptE ++ intRepr p.review_count ++ promptF ++ categoryStr ++
  promptG ++ reviewsStr ++ promptH

/-- A well-formed analysis response: a JSON object with all eight fields and
score 85. -/
def analysisJsonOk : List Char := str "\x7b\"virality_score\": 85, \"why_winning\": \"w\", \"problem_solved\": \"p\", \"emotional_triggers\": [\"e1\"], \"marketing_angles\": [], \"quality_flags\": [], \"target_audience\": \"t\", \"ad_hooks\": []\x7d"

/-- The field list `json.loads` produces for `analysisJsonOk`. -/
def analysisFieldsOk : List (List Char × Json) :=
  [(str "virality_score", Json.num 85 0),
   (str "why_winning", Json.str (str "w")),
   (str "problem_solved", Json.str (str "p")),
   (str "emotional_triggers", Json.arr [Json.str (str "e1")]),
   (str "marketing_angles", Json.arr []),
   (str "quality_flags", Json.arr []),
   (str "target_audience", Json.str (str "t")),
   (str "ad_hooks", Json.arr [])]

/-- The `ProductAnalysis` described by `analysisJsonOk`. -/
def analysisOk : ProductAnalysis :=
  ⟨85, str "w", str "p", [str "e1"], [], [], str "t", []⟩

/-- A product whose rating is the (falsy) float `0.0` and whose category is
the (falsy) empty string. -/
def productFalsyFields : ProductData :=
  ⟨str "id1", str "Widget", str "http://x", 0, none, 1000, some 0, 2,
   none, some [], [str "Great"], none⟩

/-- `productFalsyFields` with rating and category absent instead. -/
def productAbsentFields : ProductData :=
  ⟨str "id1", str "Widget", str "http://x", 0, none, 1000, none, 2,
   none, none, [str "Great"], none⟩

/-- A product with one review. -/
def productWithReview : ProductData :=
  ⟨str "p1", str "T", str "u", 10, none, 5, none, 1, none, none, [str "Great"], none⟩

/-- `productWithReview` with its review list emptied. -/
def productNoReview : ProductData :=
  ⟨str "p1", str "T", str "u", 10, none, 5, none, 1, none, none, [], none⟩

/-- A fixed analysis used as the second argument of `from_product_and_analysis`
in concrete instances. -/
def analysisFixture : ProductAnalysis :=
  ⟨70, str "w", str "p", [], [], [], str "t", []⟩

/-- A product with price 0 and original price 25 (a concrete discount case). -/
def productDiscount : ProductData :=
  ⟨str "w", str "W", str "u", 0, some 25, 10, none, 0, none, none, [], none⟩

/-- C4: `ProductAnalysis` construction fails exactly when `virality_score`
is strictly below 0 or strictly above 100, and succeeds at the boundary
values 0 and 100 (the score is rejected, not clamped). -/
theorem mkProductAnalysis_range (v : Int) (ww ps : List Char)
    (et ma qf : List (List Char)) (ta : List Char) (ah : List (List Char)) :
    (mkProductAnalysis v ww ps et ma qf ta ah = none ↔ v < 0 ∨ 100 < v) ∧
    mkProductAnalysis 0 ww ps et ma qf ta ah = some ⟨0, ww, ps, et, ma, qf, ta, ah⟩ ∧
    mkProductAnalysis 100 ww ps et ma qf ta ah = some ⟨100, ww, ps, et, ma, qf, ta, ah⟩ := by
  refine ⟨?_, ?_, ?_⟩
  · unfold mkProductAnalysis
    split_ifs with h
    · simp only [reduceCtorEq, false_iff]
      omega
    · simp only [true_iff]
      omega
  · unfold mkProductAnalysis
    rw [if_pos (by omega)]
  · unfold mkProductAnalysis
    rw [if_pos (by omega)]

/-- C2: a failing generation call yields, instead of an exception, the
degraded default with score 0 and `quality_flags == ["Analysis failed"]`,
and the batch loop produces one result per input, so one failure never
aborts the rest of the batch. -/
theorem analyze_product_generation_failure (e : List Char)
    (gens : List (Except (List Char) (List Char))) :
    analyze_product (Except.error e) = defaultGenFailure e ∧
    (defaultGenFailure e).virality_score = 0 ∧
    (defaultGenFailure e).quality_flags = [str "Analysis failed"] ∧
    (analyze_products gens).length = gens.length ∧
    analyze_products gens = gens.map analyze_product := by
  exact ⟨rfl, rfl, rfl, List.length_map gens analyze_product, rfl⟩

/-- C9 counterexample: `ProductData` construction **accepts** an empty
identifier, a negative price, a negative sales count, a negative review
count and a rating outside `[0, 5]` — the source declares no constraints —
contradicting the claim that construction rejects these. -/
theorem mkProductData_accepts_invalid :
    (mkProductData [] (str "t") (str "u") (-5) none (-3) (some 7) (-1)
        none none [] none).isSome = true := by
  rfl

/-- C9 amended: `ProductData` construction is unvalidated — it accepts any
field values (in particular the ones the claim says are rejected) — while
`review_count` defaults to 0 and the review list defaults to empty when
omitted. -/
theorem mkProductData_no_validation (pid pt pu : List Char) (price : ℚ)
    (op : Option ℚ) (sc : Int) (ra : Option ℚ) (rc : Int)
    (sn cat : Option (List Char)) (rv : List (List Char))
    (iu : Option (List Char)) :
    mkProductData pid pt pu price op sc ra rc sn cat rv iu =
      some ⟨pid, pt, pu, price, op, sc, ra, rc, sn, cat, rv, iu⟩ ∧
    mkProductDataMinimal pid pt pu price sc =
      some ⟨pid, pt, pu, price, none, sc, none, 0, none, none, [], none⟩ := by
  exact ⟨rfl, rfl⟩

/-- C10 counterexample: two products that differ only in their review
sequence map to the *same* `AnalyzedProduct` — the review sequence is
dropped by the merge (the source's `AnalyzedProduct` has no `reviews`
field), contradicting the claim that every `ProductRecord` field including
the review sequence appears unchanged in the result. -/
theorem from_product_and_analysis_drops_reviews :
    from_product_and_analysis productWithReview analysisFixture =
      from_product_and_analysis productNoReview analysisFixture ∧
    productWithReview.reviews ≠ productNoReview.reviews := by
  exact ⟨rfl, by decide⟩

/-- C10 amended: the merge preserves every `ProductData` field **except the
review sequence, which is dropped**, preserves every `ProductAnalysis`
field, adds only `discount_percentage`, and (being a pure value) is never
mutated after construction. -/
theorem from_product_and_analysis_fields (p : ProductData) (a : ProductAnalysis) :
    (from_product_and_analysis p a).product_id = p.product_id ∧
    (from_product_and_analysis p a).product_title = p.product_title ∧
    (from_product_and_analysis p a).product_url = p.product_url ∧
    (from_product_and_analysis p a).price = p.price ∧
    (from_product_and_analysis p a).original_price = p.original_price ∧
    (from_product_and_analysis p a).sales_count = p.sales_count ∧
    (from_product_and_analysis p a).rating = p.rating ∧
    (from_product_and_analysis p a).review_count = p.review_count ∧
    (from_product_and_analysis p a).shop_name = p.shop_name ∧
    (from_product_and_analysis p a).category = p.category ∧
    (from_product_and_analysis p a).image_url = p.image_url ∧
    (from_product_and_analysis p a).virality_score = a.virality_score ∧
    (from_product_and_analysis p a).why_winning = a.why_winning ∧
    (from_product_and_analysis p a).problem_solved = a.problem_solved ∧
    (from_product_and_analysis p a).emotional_triggers = a.emotional_triggers ∧
    (from_product_and_analysis p a).marketing_angles = a.marketing_angles ∧
    (from_product_and_analysis p a).quality_flags = a.quality_flags ∧
    (from_product_and_analysis p a).target_audience = a.target_audience ∧
    (from_product_and_analysis p a).ad_hooks = a.ad_hooks := by
  refine ⟨rfl, rfl, rfl, rfl, rfl, rfl, rfl, rfl, rfl, rfl, rfl, rfl, rfl, rfl, rfl,
    rfl, rfl, rfl, rfl⟩

/-- C5: the computed discount is `None` unless an original price is present
and exceeds the price, in which case it is exactly
`round((1 - price/original_price) * 100, 1)` (given the spec's invariant
that the price is non-negative). -/
theorem discount_percentage_formula (p : ProductData) (a : ProductAnalysis)
    (hp : 0 ≤ p.price) :
    (from_product_and_analysis p a).discount_percentage =
      match p.original_price with
      | some op => if p.price < op then some (pyRound1 ((1 - p.price / op) * 100)) else none
      | none => none := by
  unfold from_product_and_analysis
  cases hop : p.original_price with
  | none => rfl
  | some op =>
    by_cases hlt : p.price < op
    · have hne : op ≠ 0 := by
        have h0 : (0 : ℚ) < op := lt_of_le_of_lt hp hlt
        exact ne_of_gt h0
      simp only [if_pos (And.intro hne hlt), if_pos hlt]
    · have hcond : ¬(op ≠ 0 ∧ p.price < op) := by
        intro hcon
        exact hlt hcon.2
      simp only [if_neg hcond, if_neg hlt]

/-- C5 witness: the discount formula theorem applied at a concrete product
(price 0, original price 25). -/
theorem discount_percentage_formula_witness :
    (0 : ℚ) ≤ productDiscount.price ∧
    (from_product_and_analysis productDiscount analysisFixture).discount_percentage =
      match productDiscount.original_price with
      | some op =>
        if productDiscount.price < op then
          some (pyRound1 ((1 - productDiscount.price / op) * 100))
        else none
      | none => none :=
  ⟨le_refl 0, discount_percentage_formula productDiscount analysisFixture (le_refl 0)⟩

/-- C7: construction fails with a `ValueError` exactly when the selected
provider's own credential is falsy (absent or empty) or the provider name
is unknown; the iff's right side never mentions another provider's
credential, so missing credentials for unselected providers cannot cause
failure, and construction performs no generation call. -/
theorem ProductAnalyzer_init_fails_iff (provider : List Char)
    (anthropicKey openaiKey openrouterKey : Option (List Char)) (m : List Char) :
    (∃ e, ProductAnalyzer.init provider anthropicKey openaiKey openrouterKey m =
        Except.error e) ↔
      (provider = str "anthropic" ∧ pyTruthyOptStr anthropicKey = false) ∨
      (provider = str "openai" ∧ pyTruthyOptStr openaiKey = false) ∨
      (provider = str "openrouter" ∧ pyTruthyOptStr openrouterKey = false) ∨
      (provider ≠ str "anthropic" ∧ provider ≠ str "openai" ∧
        provider ≠ str "openrouter") := by
  have d1 : str "anthropic" ≠ str "openai" := by decide
  have d2 : str "anthropic" ≠ str "openrouter" := by decide
  have d3 : str "openai" ≠ str "openrouter" := by decide
  unfold ProductAnalyzer.init
  split_ifs with h1 h2 h3 h4 h5 h6 <;> simp_all

theorem filter_orderedInsert_pos (a : AnalyzedProduct) (s : Int)
    (ha : a.virality_score = s) (l : List AnalyzedProduct) :
    (List.orderedInsert descByScore a l).filter (fun x => x.virality_score == s) =
      a :: l.filter (fun x => x.virality_score == s) := by
  induction l with
  | nil => simp [List.orderedInsert, ha]
  | cons b t ih =>
    by_cases h : descByScore a b
    · rw [List.orderedInsert, if_pos h]
      simp [List.filter_cons, ha]
    · rw [List.orderedInsert, if_neg h]
      have hb : (b.virality_score == s) = false := by
        unfold descByScore at h
        simp only [beq_eq_false_iff_ne, ne_eq]
        omega
      simp [List.filter_cons, hb, ih]

theorem filter_orderedInsert_neg (a : AnalyzedProduct) (s : Int)
    (ha : a.virality_score ≠ s) (l : List AnalyzedProduct) :
    (List.orderedInsert descByScore a l).filter (fun x => x.virality_score == s) =
      l.filter (fun x => x.virality_score == s) := by
  have hafalse : (a.virality_score == s) = false := by
    simp only [beq_eq_false_iff_ne, ne_eq]
    exact ha
  induction l with
  | nil => simp [List.orderedInsert, hafalse]
  | cons b t ih =>
    by_cases h : descByScore a b
    · rw [List.orderedInsert, if_pos h]
      simp [List.filter_cons, hafalse]
    · rw [List.orderedInsert, if_neg h]
      simp [List.filter_cons, ih]

theorem filter_insertionSort_eq (s : Int) (l : List AnalyzedProduct) :
    (List.insertionSort descByScore l).filter (fun x => x.virality_score == s) =
      l.filter (fun x => x.virality_score == s) := by
  induction l with
  | nil => rfl
  | cons a t ih =>
    rw [List.insertionSort]
    by_cases ha : a.virality_score = s
    · rw [filter_orderedInsert_pos a s ha, ih]
      simp [List.filter_cons, ha]
    · rw [filter_orderedInsert_neg a s ha, ih]
      have : (a.virality_score == s) = false := by
        simp only [beq_eq_false_iff_ne, ne_eq]
        exact ha
      simp [List.filter_cons, this]

/-- C6: ranking is a permutation of its input, sorted non-increasing by
virality score, and stable — for every score value the subsequence of
items carrying that score is unchanged, so equal-score items retain their
original relative order. -/
theorem rankProducts_sorted_stable (l : List AnalyzedProduct) :
    (rankProducts l).Perm l ∧
    List.Sorted descByScore (rankProducts l) ∧
    ∀ s : Int, (rankProducts l).filter (fun x => x.virality_score == s) =
      l.filter (fun x => x.virality_score == s) := by
  refine ⟨List.perm_insertionSort descByScore l,
    List.sorted_insertionSort descByScore l,
    fun s => filter_insertionSort_eq s l⟩

/-- C1: whenever JSON decoding fails, or the decoded value is an object
whose field validation fails (missing required field, wrong type, score out
of range), `_parse_response` returns — it does not raise — the degraded
default: score 50, `problem_solved = "Unknown"`,
`target_audience = "General consumers"`, every list field empty except
`quality_flags = ["Analysis incomplete"]`. -/
theorem parse_response_failure_default (t : List Char)
    (h : parseJson (pyStrip (stripFences (pyStrip t))) = none ∨
      ∃ fields, parseJson (pyStrip (stripFences (pyStrip t))) = some (Json.obj fields) ∧
        validateAnalysis fields = none) :
    _parse_response t = Except.ok defaultParseFailure ∧
    defaultParseFailure.virality_score = 50 ∧
    defaultParseFailure.problem_solved = str "Unknown" ∧
    defaultParseFailure.target_audience = str "General consumers" ∧
    defaultParseFailure.emotional_triggers = [] ∧
    defaultParseFailure.marketing_angles = [] ∧
    defaultParseFailure.ad_hooks = [] ∧
    defaultParseFailure.quality_flags = [str "Analysis incomplete"] := by
  refine ⟨?_, rfl, rfl, rfl, rfl, rfl, rfl, rfl⟩
  unfold _parse_response
  rcases h with h | ⟨fields, hp, hv⟩
  · rw [h]
  · rw [hp]
    dsimp only
    rw [hv]

/-- C1 witness: the theorem applied to a concrete non-JSON response and a
concrete object response whose score is out of range. -/
theorem parse_response_failure_default_witness :
    (parseJson (pyStrip (stripFences (pyStrip (str "oops, not json")))) = none ∧
      _parse_response (str "oops, not json") = Except.ok defaultParseFailure) :=
  ⟨by rfl,
   (parse_response_failure_default (str "oops, not json") (Or.inl (by rfl))).1⟩

theorem joinWith_cons_ne_nil (sep x : List Char) (xs : List (List Char))
    (hx : x ≠ []) : joinWith sep (x :: xs) ≠ [] := by
  cases xs with
  | nil => simpa [joinWith] using hx
  | cons y ys =>
    simp only [joinWith]
    intro hcon
    rcases List.append_eq_nil.mp hcon with ⟨hl, _⟩
    rcases List.append_eq_nil.mp hl with ⟨hx2, _⟩
    exact hx hx2

/-- C8 amended: the prompt builder produces exactly the spec-described text
block, with rating rendered `N/A` exactly when absent **or zero** and
category rendered `Unknown` exactly when absent **or empty** (Python
truthiness), reviews as described. -/
theorem format_prompt_spec_eq (p : ProductData) :
    _format_prompt p = formatPromptSpec p := by
  unfold _format_prompt formatPromptSpec
  have hrevpiece :
      (if joinWith (str "\n") ((p.reviews.take 10).map (fun review => str "- " ++ review)) = []
        then str "No reviews available"
        else joinWith (str "\n") ((p.reviews.take 10).map (fun review => str "- " ++ review))) =
      (if p.reviews = [] then str "No reviews available"
        else joinWith (str "\n") ((p.reviews.take 10).map (fun review => str "- " ++ review))) := by
    cases hrev : p.reviews with
    | nil => simp [joinWith]
    | cons a t =>
      have h1 : ((a :: t).take 10).map (fun review => str "- " ++ review) =
          (str "- " ++ a) :: (t.take 9).map (fun review => str "- " ++ review) := rfl
      have h2 : joinWith (str "\n") (((a :: t).take 10).map (fun review => str "- " ++ review)) ≠ [] := by
        rw [h1]
        exact joinWith_cons_ne_nil _ _ _ (by simp [str])
      rw [if_neg h2, if_neg (List.cons_ne_nil a t)]
  have hratpiece :
      (match p.rating with
        | some r => if r = 0 then str "N/A" else ratRepr r
        | none => str "N/A") =
      (if p.rating = none ∨ p.rating = some 0 then str "N/A" else ratRepr (p.rating.getD 0)) := by
    rcases p.rating with _ | r
    · simp
    · by_cases hr : r = 0 <;> simp [hr]
  have hcatpiece :
      (match p.category with
        | some c => if c = [] then str "Unknown" else c
        | none => str "Unknown") =
      (if p.category = none ∨ p.category = some [] then str "Unknown" else p.category.getD []) := by
    rcases p.category with _ | c
    · simp
    · by_cases hc : c = [] <;> simp [hc]
  rw [hrevpiece, hratpiece, hcatpiece]

/-- C8 counterexample: a product whose rating is present (the float `0.0`)
and whose category is present (the empty string) yields the very same
prompt as the product with those fields absent — so `N/A`/`Unknown` are
*not* rendered exactly when the fields are absent, contradicting the
claim. -/
theorem format_prompt_truthiness_counterexample :
    _format_prompt productFalsyFields = _format_prompt productAbsentFields ∧
    productFalsyFields.rating = some 0 ∧
    productAbsentFields.rating = none ∧
    productFalsyFields.category = some [] ∧
    productAbsentFields.category = none := by
  exact ⟨rfl, rfl, rfl, rfl, rfl⟩

theorem dropWhile_append_all {p : Char → Bool} {w : List Char} (s : List Char)
    (h : ∀ c ∈ w, p c = true) : (w ++ s).dropWhile p = s.dropWhile p := by
  induction w with
  | nil => rfl
  | cons a t ih =>
    rw [List.cons_append, List.dropWhile_cons, h a (List.mem_cons_self a t)]
    exact ih (fun c hc => h c (List.mem_cons_of_mem a hc))

theorem dropWhile_append_of_ne {p : Char → Bool} {s : List Char} (t : List Char)
    (h : s.dropWhile p ≠ []) : (s ++ t).dropWhile p = s.dropWhile p ++ t := by
  induction s with
  | nil => exact absurd rfl h
  | cons a u ih =>
    rw [List.cons_append, List.dropWhile_cons, List.dropWhile_cons] at *
    by_cases hpa : p a
    · rw [hpa] at h ⊢
      simp only [if_true] at h ⊢
      exact ih h
    · simp only [Bool.not_eq_true] at hpa
      rw [hpa]
      simp

theorem pyStrip_ws_left {w : List Char} (s : List Char)
    (h : ∀ c ∈ w, pyIsSpace c = true) : pyStrip (w ++ s) = pyStrip s := by
  unfold pyStrip
  rw [dropWhile_append_all s h]

theorem pyStrip_ws_right {w : List Char} (s : List Char)
    (h : ∀ c ∈ w, pyIsSpace c = true) : pyStrip (s ++ w) = pyStrip s := by
  unfold pyStrip
  by_cases hs : s.dropWhile pyIsSpace = []
  · have hall : ∀ c ∈ s, pyIsSpace c = true := List.dropWhile_eq_nil_iff.mp hs
    have hall2 : (s ++ w).dropWhile pyIsSpace = [] := by
      rw [List.dropWhile_eq_nil_iff]
      intro c hc
      rcases List.mem_append.mp hc with hcs | hcw
      · exact hall c hcs
      · exact h c hcw
    rw [hall2, hs]
  · rw [dropWhile_append_of_ne w hs, List.reverse_append,
      dropWhile_append_all _ (fun c hc => h c (List.mem_reverse.mp hc))]

theorem isPrefixOf_self_append (pre s : List Char) : pre.isPrefixOf (pre ++ s) = true := by
  induction pre with
  | nil => cases s <;> rfl
  | cons a t ih => simp [List.isPrefixOf, ih]

theorem startswith_self_append (pre s : List Char) : startswith pre (pre ++ s) = true :=
  isPrefixOf_self_append pre s

theorem endswith_self_append (suf s : List Char) : endswith suf (s ++ suf) = true := by
  unfold endswith
  rw [List.reverse_append]
  exact isPrefixOf_self_append suf.reverse s.reverse

theorem pyStrip_backtick_wrapped (s : List Char)
    (h1 : ∃ t1, s = backtick :: t1) (h2 : ∃ t2, s = t2 ++ fenceBare) :
    pyStrip s = s := by
  have hb : pyIsSpace backtick = false := by decide
  obtain ⟨t2, h2⟩ := h2
  have hrev : s.reverse = backtick :: (backtick :: backtick :: t2.reverse) := by
    rw [h2]
    simp [fenceBare]
  obtain ⟨t1, rfl⟩ := h1
  unfold pyStrip
  rw [List.dropWhile_cons, hb]
  simp only [Bool.false_eq_true, if_false]
  rw [hrev, List.dropWhile_cons, hb]
  simp only [Bool.false_eq_true, if_false]
  rw [← hrev, List.reverse_reverse]

theorem stripFences_json (body : List Char) :
    stripFences (fenceJson ++ ('\n' :: body) ++ ('\n' :: fenceBare)) =
      '\n' :: (body ++ [ '\n' ]) := by
  have hassoc : fenceJson ++ ('\n' :: body) ++ ('\n' :: fenceBare) =
      fenceJson ++ (('\n' :: body) ++ ('\n' :: fenceBare)) := by
    simp [List.append_assoc]
  have hsw1 : startswith fenceJson
      (fenceJson ++ (('\n' :: body) ++ ('\n' :: fenceBare))) = true :=
    startswith_self_append _ _
  have hsw2 : startswith fenceBare (('\n' :: body) ++ ('\n' :: fenceBare)) = false := by
    have hne : (backtick == '\n') = false := by decide
    simp [startswith, fenceBare, List.isPrefixOf, hne]
  have hsplit : ('\n' :: body) ++ ('\n' :: fenceBare) =
      ('\n' :: (body ++ [ '\n' ])) ++ fenceBare := by
    simp [List.append_assoc]
  have hends : endswith fenceBare (('\n' :: body) ++ ('\n' :: fenceBare)) = true := by
    rw [hsplit]
    exact endswith_self_append _ _
  have htake : (('\n' :: body) ++ ('\n' :: fenceBare)).take
      ((('\n' :: body) ++ ('\n' :: fenceBare)).length - 3) = '\n' :: (body ++ [ '\n' ]) := by
    rw [hsplit, List.length_append]
    have hlen : ('\n' :: (body ++ [ '\n' ])).length + fenceBare.length - 3 =
        ('\n' :: (body ++ [ '\n' ])).length := by
      simp [fenceBare]
    rw [hlen]
    exact List.take_left _ _
  have hdrop : (fenceJson ++ (('\n' :: body) ++ ('\n' :: fenceBare))).drop 7 =
      ('\n' :: body) ++ ('\n' :: fenceBare) := by
    rw [show (7 : Nat) = fenceJson.length from rfl]
    exact List.drop_left _ _
  unfold stripFences
  rw [hassoc]
  simp only [hsw1, if_true, hdrop, hsw2, Bool.false_eq_true, if_false, hends, htake]

theorem stripFences_bare (body : List Char) :
    stripFences (fenceBare ++ ('\n' :: body) ++ ('\n' :: fenceBare)) =
      '\n' :: (body ++ [ '\n' ]) := by
  have hassoc : fenceBare ++ ('\n' :: body) ++ ('\n' :: fenceBare) =
      fenceBare ++ (('\n' :: body) ++ ('\n' :: fenceBare)) := by
    simp [List.append_assoc]
  have hsw1 : startswith fenceJson
      (fenceBare ++ (('\n' :: body) ++ ('\n' :: fenceBare))) = false := by
    have hjn : str "json" = 'j' :: str "son" := rfl
    have hne : ('j' == '\n') = false := by decide
    simp [startswith, fenceJson, fenceBare, List.isPrefixOf, hjn, hne]
  have hsw2 : startswith fenceBare
      (fenceBare ++ (('\n' :: body) ++ ('\n' :: fenceBare))) = true :=
    startswith_self_append _ _
  have hsplit : ('\n' :: body) ++ ('\n' :: fenceBare) =
      ('\n' :: (body ++ [ '\n' ])) ++ fenceBare := by
    simp [List.append_assoc]
  have hends : endswith fenceBare (('\n' :: body) ++ ('\n' :: fenceBare)) = true := by
    rw [hsplit]
    exact endswith_self_append _ _
  have htake : (('\n' :: body) ++ ('\n' :: fenceBare)).take
      ((('\n' :: body) ++ ('\n' :: fenceBare)).length - 3) = '\n' :: (body ++ [ '\n' ]) := by
    rw [hsplit, List.length_append]
    have hlen : ('\n' :: (body ++ [ '\n' ])).length + fenceBare.length - 3 =
        ('\n' :: (body ++ [ '\n' ])).length := by
      simp [fenceBare]
    rw [hlen]
    exact List.take_left _ _
  have hdrop : (fenceBare ++ (('\n' :: body) ++ ('\n' :: fenceBare))).drop 3 =
      ('\n' :: body) ++ ('\n' :: fenceBare) := by
    rw [show (3 : Nat) = fenceBare.length from rfl]
    exact List.drop_left _ _
  unfold stripFences
  rw [hassoc]
  simp only [hsw1, Bool.false_eq_true, if_false, hsw2, if_true, hdrop, hends, htake]

theorem pyStrip_core_fenced (tag body : List Char)
    (htag : tag = fenceJson ∨ tag = fenceBare) :
    pyStrip (tag ++ ('\n' :: body) ++ ('\n' :: fenceBare)) =
      tag ++ ('\n' :: body) ++ ('\n' :: fenceBare) := by
  apply pyStrip_backtick_wrapped
  · rcases htag with rfl | rfl
    · exact ⟨backtick :: backtick :: (str "json" ++ ('\n' :: body) ++ ('\n' :: fenceBare)),
        by simp [fenceJson, fenceBare, List.append_assoc]⟩
    · exact ⟨backtick :: backtick :: (('\n' :: body) ++ ('\n' :: fenceBare)),
        by simp [fenceBare, List.append_assoc]⟩
  · exact ⟨tag ++ ('\n' :: body) ++ [ '\n' ], by simp [List.append_assoc]⟩

/-- C3 amended: a response consisting of a valid JSON object that validates
to an analysis, wrapped in a leading code fence **bare or with the language
tag `json` specifically** (other language tags are not stripped by the
source) and a trailing fence, possibly surrounded by whitespace, is
interpreted as exactly that analysis. -/
theorem parse_response_fenced (w1 w2 body tag : List Char)
    (fields : List (List Char × Json)) (a : ProductAnalysis)
    (hw1 : ∀ c ∈ w1, pyIsSpace c = true)
    (hw2 : ∀ c ∈ w2, pyIsSpace c = true)
    (htag : tag = fenceJson ∨ tag = fenceBare)
    (hparse : parseJson (pyStrip body) = some (Json.obj fields))
    (hvalid : validateAnalysis fields = some a) :
    _parse_response (w1 ++ tag ++ ('\n' :: body) ++ ('\n' :: fenceBare) ++ w2) =
      Except.ok a := by
  have hW : w1 ++ tag ++ ('\n' :: body) ++ ('\n' :: fenceBare) ++ w2 =
      w1 ++ ((tag ++ ('\n' :: body) ++ ('\n' :: fenceBare)) ++ w2) := by
    simp [List.append_assoc]
  rw [hW]
  unfold _parse_response
  rw [pyStrip_ws_left _ hw1, pyStrip_ws_right _ hw2, pyStrip_core_fenced tag body htag]
  have hsf : stripFences (tag ++ ('\n' :: body) ++ ('\n' :: fenceBare)) =
      '\n' :: (body ++ [ '\n' ]) := by
    rcases htag with rfl | rfl
    · exact stripFences_json body
    · exact stripFences_bare body
  rw [hsf]
  have hinner : pyStrip ('\n' :: (body ++ [ '\n' ])) = pyStrip body := by
    have hcons : '\n' :: (body ++ [ '\n' ]) = [ '\n' ] ++ (body ++ [ '\n' ]) := rfl
    rw [hcons, pyStrip_ws_left _ (by decide), pyStrip_ws_right _ (by decide)]
  rw [hinner, hparse]
  dsimp only
  rw [hvalid]

/-- C3 counterexample: the same valid eight-field JSON object wrapped in a
fence whose language tag is `python` is *not* interpreted as the matching
analysis (score 85) — the source only strips a bare or `json`-tagged fence,
so parsing fails and the score-50 default is returned instead. -/
theorem parse_response_langtag_counterexample :
    _parse_response (str "```json\n" ++ analysisJsonOk ++ str "\n```") =
      Except.ok analysisOk ∧
    _parse_response (str "```python\n" ++ analysisJsonOk ++ str "\n```") =
      Except.ok defaultParseFailure ∧
    analysisOk.virality_score = 85 ∧
    defaultParseFailure.virality_score = 50 := by
  exact ⟨rfl, rfl, rfl, rfl⟩

/-- C3 witness: the fenced-response theorem applied at a concrete fenced
response (whitespace around, `json` language tag). -/
theorem parse_response_fenced_witness :
    _parse_response ((str "  ") ++ fenceJson ++ ('\n' :: analysisJsonOk) ++
        ('\n' :: fenceBare) ++ (str " ")) = Except.ok analysisOk :=
  parse_response_fenced (str "  ") (str " ") analysisJsonOk fenceJson
    analysisFieldsOk analysisOk (by decide) (by decide) (Or.inl rfl)
    (by rfl) (by rfl)
